import Mathlib

/-!
Shallow embedding of the `Graphs` endpoint class of
`graphspace_python/api/endpoint/graphs.py`.

Each endpoint method is embedded as a pure function that receives the client
(holding the caller identity `username`) and the transport collaborator as a
function from requests to JSON-decoded dict responses.  Every operation
returns the pair of its outcome (`Except Err _`, modelling Python exceptions)
and the list of requests it issued to `client._make_request`, in order.
-/

/-- JSON values, as decoded from a service response body. -/
inductive Json where
  | null : Json
  | num : Int → Json
  | str : String → Json
  | arr : List Json → Json
  | obj : List (String × Json) → Json

/-- A Python dict with string keys and JSON values (insertion order kept). -/
abbrev Dict := List (String × Json)

/-- Python `d.get(k)`: the value at the first occurrence of `k`, if any. -/
def jget : Dict → String → Option Json
  | [], _ => none
  | (k0, v0) :: rest, k => if k0 = k then some v0 else jget rest k

/-- Python `d.update({k: v})` for a single key: replace the value in place
when the key is present, otherwise append the binding at the end. -/
def dictUpdate : Dict → String → Json → Dict
  | [], k, v => [(k, v)]
  | (k0, v0) :: rest, k, v =>
    if k0 = k then (k0, v) :: rest else (k0, v0) :: dictUpdate rest k v

/-- Exceptions an operation can raise. -/
inductive Err where
  | exc : String → Err
  | keyError : String → Err
  | typeError : Err
  | indexError : Err

/-- Python `d[k]`: the value at `k`, or a `KeyError`. -/
def pyGetItem (d : Dict) (k : String) : Except Err Json :=
  match jget d k with
  | some v => Except.ok v
  | none => Except.error (Err.keyError k)

/-- Python `d.get(k, default)` used as an int (the `total` count): the
default when the key is absent, the number when present, a `TypeError`
when the stored value is not a number (as comparing it with `0` would). -/
def pyGetInt (d : Dict) (k : String) (dflt : Int) : Except Err Int :=
  match jget d k with
  | none => Except.ok dflt
  | some (Json.num n) => Except.ok n
  | some _ => Except.error Err.typeError

/-- Python `x[0]` on the result of `d.get(k)`: first element of a list,
`IndexError` on an empty list, `TypeError` on `None` or a non-sequence. -/
def pyIndex0 : Option Json → Except Err Json
  | some (Json.arr (x :: _)) => Except.ok x
  | some (Json.arr []) => Except.error Err.indexError
  | some _ => Except.error Err.typeError
  | none => Except.error Err.typeError

/-- An HTTP request as handed to `client._make_request(method, path, data,
url_params)`. -/
structure Request where
  method : String
  path : String
  data : Option Dict
  url_params : Option Dict

/-- The transport collaborator: `client._make_request`, modelled as a
function from the request to the JSON-decoded dict response.  (A transport
error would raise before the endpoint code resumes; the claims below are
about the endpoint's own behaviour, so the transport is total here.) -/
abbrev Transport := Request → Dict

/-- The client collaborator as seen from the endpoint: the caller identity. -/
structure Client where
  username : String

/-- Modelled from the spec: the fixed base collection path for graphs
(`GRAPHS_PATH` lives in `graphspace_python/api/config.py`, which is not
under `src/`; the spec only requires a fixed base collection path). -/
def GRAPHS_PATH : String := "api/v1/graphs/"

/-- Modelled from the spec: the graph domain object built from a JSON
response (`graphspace_python.api.obj.graph.Graph` is not under `src/`).
It holds the JSON it was constructed from. -/
structure Graph where
  gjson : Json

/-- Modelled from the spec: the graph resource is identified by a numeric
id; the domain object's `id` attribute is the numeric `id` field of its
JSON, absent otherwise. -/
def Graph.id (g : Graph) : Option Int :=
  match g.gjson with
  | Json.obj d =>
    match jget d "id" with
    | some (Json.num n) => some n
    | _ => none
  | _ => none

/-- Modelled from the spec: the single-entity unwrap of the response
envelope (`APIResponse(..).graph`, `graphspace_python.api.obj.api_response`
is not under `src/`): the given JSON is wrapped as a `Graph` domain object. -/
def apiResponseGraph (j : Json) : Graph := ⟨j⟩

/-- Modelled from the spec: the collection unwrap of the response envelope
(`APIResponse(..).graphs`): the entities are the list under the plural key
`graphs`, each wrapped as a `Graph`. -/
def apiResponseGraphs (response : Dict) : Except Err (List Graph) :=
  match jget response "graphs" with
  | some (Json.arr l) => Except.ok (l.map Graph.mk)
  | some _ => Except.error Err.typeError
  | none => Except.error (Err.keyError "graphs")

/-- The domain object handed to `post_graph` / `update_graph`: all the
endpoint uses of it is its serialization `graph.json()`. -/
structure GSGraph where
  json : Dict

/-- Message of the exception raised when both `graph_id` and `name` are
`None`. -/
def bothNoneMsg : String := "Both graph_id and name can\x27t be none!"

/-- Message of the exception raised when a name-based resolution finds no
graph: `'Graph with name `%s` doesnt exist for user `%s`!' % (name,
self.client.username)`. -/
def notFoundMsg (name username : String) : String :=
  "Graph with name `" ++ name ++ "` doesnt exist for user `" ++ username ++ "`!"

/-- The query dict built by the name branch of `get_graph`:
`{'owner_email': client.username if owner_email is None else owner_email,
'names[]': name}`, then `query.update({'is_public': 1})` when
`owner_email is not None and owner_email != client.username`. -/
def lookupQuery (c : Client) (name : String) (owner_email : Option String) : Dict :=
  let query : Dict :=
    [("owner_email", Json.str (match owner_email with
        | none => c.username
        | some oe => oe)),
     ("names[]", Json.str name)]
  match owner_email with
  | some oe => if oe ≠ c.username then dictUpdate query "is_public" (Json.num 1) else query
  | none => query

/-- The lookup request issued by the name branch of `get_graph`. -/
def lookupRequest (c : Client) (name : String) (owner_email : Option String) : Request :=
  ⟨"GET", GRAPHS_PATH, none, some (lookupQuery c name owner_email)⟩

/-- `Graphs.get_graph(name=None, graph_id=None, owner_email=None)`. -/
def get_graph (c : Client) (t : Transport) (name : Option String)
    (graph_id : Option Int) (owner_email : Option String) :
    Except Err (Option Graph) × List Request :=
  match graph_id with
  | some gid =>
    let graph_by_id_path := GRAPHS_PATH ++ toString gid
    let req : Request := ⟨"GET", graph_by_id_path, none, none⟩
    (Except.ok (some (apiResponseGraph (Json.obj (t req)))), [req])
  | none =>
    match name with
    | some nm =>
      let req := lookupRequest c nm owner_email
      let response := t req
      let result : Except Err (Option Graph) :=
        match pyGetInt response "total" 0 with
        | Except.error e => Except.error e
        | Except.ok total =>
          if total > 0 then
            match pyIndex0 (jget response "graphs") with
            | Except.ok g => Except.ok (some (apiResponseGraph g))
            | Except.error e => Except.error e
          else Except.ok none
      (result, [req])
    | none => (Except.error (Err.exc bothNoneMsg), [])

/-- `Graphs.post_graph(graph)`: `data = graph.json();
data.update({'owner_email': client.username})`, then a POST. -/
def post_graph (c : Client) (t : Transport) (graph : GSGraph) :
    Except Err Graph × List Request :=
  let data := dictUpdate graph.json "owner_email" (Json.str c.username)
  let req : Request := ⟨"POST", GRAPHS_PATH, some data, none⟩
  (Except.ok (apiResponseGraph (Json.obj (t req))), [req])

/-- The `query.update({'tags[]': tags})` step shared by the three list
operations: applied only when `tags is not None`. -/
def withTags (query : Dict) (tags : Option (List String)) : Dict :=
  match tags with
  | some ts => dictUpdate query "tags[]" (Json.arr (ts.map Json.str))
  | none => query

/-- The query dict built by `get_public_graphs`. -/
def publicGraphsQuery (limit offset : Int) (tags : Option (List String)) : Dict :=
  withTags [("is_public", Json.num 1), ("limit", Json.num limit),
    ("offset", Json.num offset)] tags

/-- The query dict built by `get_shared_graphs`. -/
def sharedGraphsQuery (c : Client) (limit offset : Int) (tags : Option (List String)) : Dict :=
  withTags [("member_email", Json.str c.username), ("limit", Json.num limit),
    ("offset", Json.num offset)] tags

/-- The query dict built by `get_my_graphs`. -/
def myGraphsQuery (c : Client) (limit offset : Int) (tags : Option (List String)) : Dict :=
  withTags [("owner_email", Json.str c.username), ("limit", Json.num limit),
    ("offset", Json.num offset)] tags

/-- `Graphs.get_public_graphs(tags=None, limit=20, offset=0)`. -/
def get_public_graphs (c : Client) (t : Transport) (tags : Option (List String))
    (limit offset : Int) : Except Err (List Graph) × List Request :=
  let _ := c
  let req : Request := ⟨"GET", GRAPHS_PATH, none, some (publicGraphsQuery limit offset tags)⟩
  (apiResponseGraphs (t req), [req])

/-- `Graphs.get_shared_graphs(tags=None, limit=20, offset=0)`. -/
def get_shared_graphs (c : Client) (t : Transport) (tags : Option (List String))
    (limit offset : Int) : Except Err (List Graph) × List Request :=
  let req : Request := ⟨"GET", GRAPHS_PATH, none, some (sharedGraphsQuery c limit offset tags)⟩
  (apiResponseGraphs (t req), [req])

/-- `Graphs.get_my_graphs(tags=None, limit=20, offset=0)`. -/
def get_my_graphs (c : Client) (t : Transport) (tags : Option (List String))
    (limit offset : Int) : Except Err (List Graph) × List Request :=
  let req : Request := ⟨"GET", GRAPHS_PATH, none, some (myGraphsQuery c limit offset tags)⟩
  (apiResponseGraphs (t req), [req])

/-- `Graphs.delete_graph(name=None, graph_id=None)`. -/
def delete_graph (c : Client) (t : Transport) (name : Option String)
    (graph_id : Option Int) : Except Err Json × List Request :=
  match graph_id with
  | some gid =>
    let graph_by_id_path := GRAPHS_PATH ++ toString gid
    let req : Request := ⟨"DELETE", graph_by_id_path, none, none⟩
    let response := t req
    (pyGetItem response "message", [req])
  | none =>
    match name with
    | some nm =>
      let lookup := get_graph c t (some nm) none none
      match lookup.1 with
      | Except.error e => (Except.error e, lookup.2)
      | Except.ok none => (Except.error (Err.exc (notFoundMsg nm c.username)), lookup.2)
      | Except.ok (some graph) =>
        match graph.id with
        | none => (Except.error (Err.exc (notFoundMsg nm c.username)), lookup.2)
        | some gid =>
          let graph_by_id_path := GRAPHS_PATH ++ toString gid
          let req : Request := ⟨"DELETE", graph_by_id_path, none, none⟩
          let response := t req
          (pyGetItem response "message", lookup.2 ++ [req])
    | none => (Except.error (Err.exc bothNoneMsg), [])

/-- `Graphs.update_graph(graph, name=None, graph_id=None, owner_email=None)`. -/
def update_graph (c : Client) (t : Transport) (graph : GSGraph)
    (name : Option String) (graph_id : Option Int) (owner_email : Option String) :
    Except Err Graph × List Request :=
  match graph_id with
  | some gid =>
    let graph_by_id_path := GRAPHS_PATH ++ toString gid
    let req : Request := ⟨"PUT", graph_by_id_path, some graph.json, none⟩
    (Except.ok (apiResponseGraph (Json.obj (t req))), [req])
  | none =>
    match name with
    | some nm =>
      let lookup := get_graph c t (some nm) none owner_email
      match lookup.1 with
      | Except.error e => (Except.error e, lookup.2)
      | Except.ok none => (Except.error (Err.exc (notFoundMsg nm c.username)), lookup.2)
      | Except.ok (some graph1) =>
        match graph1.id with
        | none => (Except.error (Err.exc (notFoundMsg nm c.username)), lookup.2)
        | some gid =>
          let graph_by_id_path := GRAPHS_PATH ++ toString gid
          let req : Request := ⟨"PUT", graph_by_id_path, some graph.json, none⟩
          (Except.ok (apiResponseGraph (Json.obj (t req))), lookup.2 ++ [req])
    | none => (Except.error (Err.exc bothNoneMsg), [])

/-- `Graphs.make_graph_public(name=None, graph_id=None)`. -/
def make_graph_public (c : Client) (t : Transport) (name : Option String)
    (graph_id : Option Int) : Except Err Graph × List Request :=
  match graph_id with
  | some gid =>
    let graph_by_id_path := GRAPHS_PATH ++ toString gid
    let req : Request := ⟨"PUT", graph_by_id_path, some [("is_public", Json.num 1)], none⟩
    (Except.ok (apiResponseGraph (Json.obj (t req))), [req])
  | none =>
    match name with
    | some nm =>
      let lookup := get_graph c t (some nm) none none
      match lookup.1 with
      | Except.error e => (Except.error e, lookup.2)
      | Except.ok none => (Except.error (Err.exc (notFoundMsg nm c.username)), lookup.2)
      | Except.ok (some graph) =>
        match graph.id with
        | none => (Except.error (Err.exc (notFoundMsg nm c.username)), lookup.2)
        | some gid =>
          let graph_by_id_path := GRAPHS_PATH ++ toString gid
          let req : Request := ⟨"PUT", graph_by_id_path, some [("is_public", Json.num 1)], none⟩
          (Except.ok (apiResponseGraph (Json.obj (t req))), lookup.2 ++ [req])
    | none => (Except.error (Err.exc bothNoneMsg), [])

/-- `Graphs.make_graph_private(name=None, graph_id=None)`. -/
def make_graph_private (c : Client) (t : Transport) (name : Option String)
    (graph_id : Option Int) : Except Err Graph × List Request :=
  match graph_id with
  | some gid =>
    let graph_by_id_path := GRAPHS_PATH ++ toString gid
    let req : Request := ⟨"PUT", graph_by_id_path, some [("is_public", Json.num 0)], none⟩
    (Except.ok (apiResponseGraph (Json.obj (t req))), [req])
  | none =>
    match name with
    | some nm =>
      let lookup := get_graph c t (some nm) none none
      match lookup.1 with
      | Except.error e => (Except.error e, lookup.2)
      | Except.ok none => (Except.error (Err.exc (notFoundMsg nm c.username)), lookup.2)
      | Except.ok (some graph) =>
        match graph.id with
        | none => (Except.error (Err.exc (notFoundMsg nm c.username)), lookup.2)
        | some gid =>
          let graph_by_id_path := GRAPHS_PATH ++ toString gid
          let req : Request := ⟨"PUT", graph_by_id_path, some [("is_public", Json.num 0)], none⟩
          (Except.ok (apiResponseGraph (Json.obj (t req))), lookup.2 ++ [req])
    | none => (Except.error (Err.exc bothNoneMsg), [])

/-- Whether the name-resolution step (a `get_graph` by name) yields a graph
carrying an id, i.e. whether a name-based delete/update/visibility call
goes on to issue its main request. -/
def resolvesToId (c : Client) (t : Transport) (nm : String)
    (owner_email : Option String) : Bool :=
  match (get_graph c t (some nm) none owner_email).1 with
  | Except.ok (some g) => g.id.isSome
  | _ => false

/-- Updating at a key makes lookup at that key return the new value. -/
theorem jget_dictUpdate_self (d : Dict) (k : String) (v : Json) :
    jget (dictUpdate d k v) k = some v := by
  induction d with
  | nil => simp [dictUpdate, jget]
  | cons p rest ih =>
    obtain ⟨k0, v0⟩ := p
    by_cases h : k0 = k <;> simp [dictUpdate, jget, h, ih]

/-- Updating at a key leaves lookups at other keys unchanged. -/
theorem jget_dictUpdate_other (d : Dict) (k k2 : String) (v : Json) (h : k2 ≠ k) :
    jget (dictUpdate d k v) k2 = jget d k2 := by
  induction d with
  | nil => simp [dictUpdate, jget, Ne.symm h]
  | cons p rest ih =>
    obtain ⟨k0, v0⟩ := p
    by_cases h0 : k0 = k
    · subst h0
      simp [dictUpdate, jget, Ne.symm h]
    · simp [dictUpdate, jget, h0, ih]

/-- The name branch of `get_graph` issues exactly the one lookup request. -/
theorem get_graph_name_snd (c : Client) (t : Transport) (nm : String)
    (oe : Option String) :
    (get_graph c t (some nm) none oe).2 = [lookupRequest c nm oe] := rfl

/-- Claim C2: every identifying operation called with both `name` and
`graph_id` absent raises the invalid-argument exception and issues zero
transport calls. -/
theorem c2_invalid_argument_fails_fast (c : Client) (t : Transport)
    (graph : GSGraph) (oe : Option String) :
    get_graph c t none none oe = (Except.error (Err.exc bothNoneMsg), []) ∧
    delete_graph c t none none = (Except.error (Err.exc bothNoneMsg), []) ∧
    update_graph c t graph none none oe = (Except.error (Err.exc bothNoneMsg), []) ∧
    make_graph_public c t none none = (Except.error (Err.exc bothNoneMsg), []) ∧
    make_graph_private c t none none = (Except.error (Err.exc bothNoneMsg), []) :=
  ⟨rfl, rfl, rfl, rfl, rfl⟩

/-- Claim C8: when both `name` and `graph_id` are supplied, every operation
behaves exactly as with only `graph_id`, and the single request it issues
targets the base collection path with the id appended as a string suffix. -/
theorem c8_id_precedence (c : Client) (t : Transport) (nm : String) (gid : Int)
    (oe : Option String) (graph : GSGraph) :
    get_graph c t (some nm) (some gid) oe = get_graph c t none (some gid) oe ∧
    delete_graph c t (some nm) (some gid) = delete_graph c t none (some gid) ∧
    update_graph c t graph (some nm) (some gid) oe =
      update_graph c t graph none (some gid) oe ∧
    make_graph_public c t (some nm) (some gid) =
      make_graph_public c t none (some gid) ∧
    make_graph_private c t (some nm) (some gid) =
      make_graph_private c t none (some gid) ∧
    (get_graph c t (some nm) (some gid) oe).2 =
      [⟨"GET", GRAPHS_PATH ++ toString gid, none, none⟩] ∧
    (delete_graph c t (some nm) (some gid)).2 =
      [⟨"DELETE", GRAPHS_PATH ++ toString gid, none, none⟩] ∧
    (update_graph c t graph (some nm) (some gid) oe).2 =
      [⟨"PUT", GRAPHS_PATH ++ toString gid, some graph.json, none⟩] ∧
    (make_graph_public c t (some nm) (some gid)).2 =
      [⟨"PUT", GRAPHS_PATH ++ toString gid, some [("is_public", Json.num 1)], none⟩] ∧
    (make_graph_private c t (some nm) (some gid)).2 =
      [⟨"PUT", GRAPHS_PATH ++ toString gid, some [("is_public", Json.num 0)], none⟩] :=
  ⟨rfl, rfl, rfl, rfl, rfl, rfl, rfl, rfl, rfl, rfl⟩

/-- Claim C7: `make_graph_public` (resp. `make_graph_private`) coincides,
for every identification and every transport, with `update_graph` applied
to an entity serializing to the single-field payload `is_public = 1`
(resp. `0`): same results and same issued request sequences. -/
theorem c7_visibility_equiv (c : Client) (t : Transport) (name : Option String)
    (graph_id : Option Int) :
    make_graph_public c t name graph_id =
      update_graph c t ⟨[("is_public", Json.num 1)]⟩ name graph_id none ∧
    make_graph_private c t name graph_id =
      update_graph c t ⟨[("is_public", Json.num 0)]⟩ name graph_id none := by
  constructor <;> (cases graph_id <;> cases name <;> rfl)

/-- Claim C9: `post_graph` issues one POST whose payload is the entity's
serialization with the `owner_email` field set to the caller identity;
lookups at every other key agree with the entity's own serialization. -/
theorem c9_post_owner_email (c : Client) (t : Transport) (graph : GSGraph) :
    (post_graph c t graph).2 =
      [⟨"POST", GRAPHS_PATH,
        some (dictUpdate graph.json "owner_email" (Json.str c.username)), none⟩] ∧
    (∀ k : String,
      jget (dictUpdate graph.json "owner_email" (Json.str c.username)) k =
        if k = "owner_email" then some (Json.str c.username) else jget graph.json k) := by
  refine ⟨rfl, fun k => ?_⟩
  by_cases h : k = "owner_email"
  · subst h
    simp [jget_dictUpdate_self]
  · simp [h, jget_dictUpdate_other _ _ _ _ h]

/-- Claim C3: the name-based lookup of `get_graph` issues one GET whose
query maps `names[]` to the name, `owner_email` to the supplied owner or
else the caller identity, and contains `is_public = 1` exactly when an
owner different from the caller identity was supplied. -/
theorem c3_lookup_query (c : Client) (t : Transport) (nm : String)
    (oe : Option String) :
    (get_graph c t (some nm) none oe).2 = [lookupRequest c nm oe] ∧
    jget (lookupQuery c nm oe) "names[]" = some (Json.str nm) ∧
    jget (lookupQuery c nm oe) "owner_email" = some (Json.str (oe.getD c.username)) ∧
    ((jget (lookupQuery c nm oe) "is_public" = some (Json.num 1)) ↔
      (oe ≠ none ∧ oe ≠ some c.username)) := by
  refine ⟨rfl, ?_, ?_, ?_⟩
  · cases oe with
    | none => simp [lookupQuery, jget]
    | some u =>
      by_cases hu : u = c.username <;>
        simp [lookupQuery, jget, hu, jget_dictUpdate_other _ _ _ _ (by decide : ("names[]" : String) ≠ "is_public")]
  · cases oe with
    | none => simp [lookupQuery, jget]
    | some u =>
      by_cases hu : u = c.username <;>
        simp [lookupQuery, jget, hu, jget_dictUpdate_other _ _ _ _ (by decide : ("owner_email" : String) ≠ "is_public")]
  · cases oe with
    | none => simp [lookupQuery, jget]
    | some u =>
      by_cases hu : u = c.username
      · simp [lookupQuery, jget, hu]
      · simp [lookupQuery, jget, hu, jget_dictUpdate_self]

/-- A concrete client, for evaluation. -/
def c0 : Client := ⟨"user1@example.com"⟩

/-- A transport whose every response is `{'total': 0}` (no match). -/
def t0 : Transport := fun _ => [("total", Json.num 0)]

/-- A transport whose every response carries two graphs and `total = 2`. -/
def t2 : Transport := fun _ =>
  [("total", Json.num 2), ("graphs", Json.arr [Json.obj [], Json.obj []])]

/-- A transport whose every response is the empty dict. -/
def t3 : Transport := fun _ => []

/-- A transport whose every response carries `total = 2` and a graphs list
whose first element has id `7`. -/
def tB : Transport := fun _ =>
  [("total", Json.num 2),
   ("graphs", Json.arr [Json.obj [("id", Json.num 7)], Json.obj []])]

/-- Claim C4: the name-based `get_graph` returns `None` without raising
when the response's `total` is `0`, and returns the first element of the
response's `graphs` list wrapped as a `Graph` when `total` is positive. -/
theorem c4_total_gating (c : Client) (t : Transport) (nm : String)
    (oe : Option String) :
    ((jget (t (lookupRequest c nm oe)) "total" = some (Json.num 0)) →
      (get_graph c t (some nm) none oe).1 = Except.ok none) ∧
    (∀ (n : Int) (g : Json) (rest : List Json), 0 < n →
      jget (t (lookupRequest c nm oe)) "total" = some (Json.num n) →
      jget (t (lookupRequest c nm oe)) "graphs" = some (Json.arr (g :: rest)) →
      (get_graph c t (some nm) none oe).1 =
        Except.ok (some (apiResponseGraph g))) := by
  constructor
  · intro h
    simp [get_graph, pyGetInt, h]
  · intro n g rest hn h1 h2
    simp [get_graph, pyGetInt, pyIndex0, h1, h2, hn]

/-- Claim C4 witness: with a `total = 0` response the fetch-by-name yields
`None`; with a `total = 2` response it yields the first listed graph. -/
theorem c4_total_gating_witness :
    (get_graph c0 t0 (some "g") none none).1 = Except.ok none ∧
    (get_graph c0 tB (some "g") none none).1 =
      Except.ok (some (apiResponseGraph (Json.obj [("id", Json.num 7)]))) :=
  ⟨(c4_total_gating c0 t0 "g" none).1 rfl,
    (c4_total_gating c0 tB "g" none).2 2 (Json.obj [("id", Json.num 7)])
      [Json.obj []] (by decide) rfl rfl⟩

/-- Claim C10: the name-based `get_graph` treats a response lacking the
`total` key as zero matches, returning `None` rather than raising; the
`graphs` key is never consulted when `total` is absent or not positive. -/
theorem c10_missing_total (c : Client) (t : Transport) (nm : String)
    (oe : Option String) :
    ((jget (t (lookupRequest c nm oe)) "total" = none) →
      (get_graph c t (some nm) none oe).1 = Except.ok none) ∧
    (∀ n : Int, n ≤ 0 →
      jget (t (lookupRequest c nm oe)) "total" = some (Json.num n) →
      (get_graph c t (some nm) none oe).1 = Except.ok none) := by
  constructor
  · intro h
    simp [get_graph, pyGetInt, h]
  · intro n hn h
    simp [get_graph, pyGetInt, h, not_lt.mpr hn]

/-- Claim C10 witness: on the empty-dict response (no `total`, no `graphs`
key at all) the fetch-by-name returns `None` without raising. -/
theorem c10_missing_total_witness :
    (get_graph c0 t3 (some "g") none none).1 = Except.ok none ∧
    (get_graph c0 t0 (some "h") none none).1 = Except.ok none :=
  ⟨(c10_missing_total c0 t3 "g" none).1 rfl,
    (c10_missing_total c0 t0 "h" none).2 0 (by decide) rfl⟩

/-- Claim C5: when the name-resolution step of a name-based delete yields
absence, `delete_graph` raises the not-found exception, whose message has
the given name and the caller identity as substrings, and issues only the
lookup GET — no DELETE request. -/
theorem c5_delete_notfound (c : Client) (t : Transport) (nm : String)
    (h : (get_graph c t (some nm) none none).1 = Except.ok none) :
    (delete_graph c t (some nm) none).1 =
      Except.error (Err.exc (notFoundMsg nm c.username)) ∧
    nm.data <:+: (notFoundMsg nm c.username).data ∧
    c.username.data <:+: (notFoundMsg nm c.username).data ∧
    (delete_graph c t (some nm) none).2 = [lookupRequest c nm none] ∧
    (∀ r ∈ (delete_graph c t (some nm) none).2, r.method = "GET") := by
  have hmsg : (notFoundMsg nm c.username).data =
      "Graph with name `".data ++ nm.data ++ ("` doesnt exist for user `".data
        ++ c.username.data ++ "`!".data) := by
    simp [notFoundMsg]
  have hdel : delete_graph c t (some nm) none =
      (Except.error (Err.exc (notFoundMsg nm c.username)), [lookupRequest c nm none]) := by
    simp [delete_graph, h, get_graph_name_snd]
  refine ⟨by rw [hdel], ?_, ?_, by rw [hdel], ?_⟩
  · exact ⟨"Graph with name `".data,
      "` doesnt exist for user `".data ++ c.username.data ++ "`!".data,
      by rw [hmsg]⟩
  · exact ⟨"Graph with name `".data ++ nm.data ++ "` doesnt exist for user `".data,
      "`!".data, by rw [hmsg]; simp⟩
  · intro r hr
    rw [hdel] at hr
    simp at hr
    rw [hr]
    rfl

/-- Claim C5 witness: deleting by name against a `total = 0` transport
raises the not-found exception after the single GET lookup. -/
theorem c5_delete_notfound_witness :
    (delete_graph c0 t0 (some "g") none).1 =
      Except.error (Err.exc (notFoundMsg "g" c0.username)) ∧
    "g".data <:+: (notFoundMsg "g" c0.username).data ∧
    c0.username.data <:+: (notFoundMsg "g" c0.username).data ∧
    (delete_graph c0 t0 (some "g") none).2 = [lookupRequest c0 "g" none] ∧
    (∀ r ∈ (delete_graph c0 t0 (some "g") none).2, r.method = "GET") :=
  c5_delete_notfound c0 t0 "g" rfl

/-- Call count of a name-based delete: two requests when the name resolves
to a graph with an id, one (the lookup alone) otherwise. -/
theorem delete_graph_name_len (c : Client) (t : Transport) (nm : String) :
    (delete_graph c t (some nm) none).2.length =
      (if resolvesToId c t nm none then 2 else 1) := by
  rcases h : (get_graph c t (some nm) none none).1 with e | og
  · simp [delete_graph, resolvesToId, h, get_graph_name_snd]
  · rcases og with _ | g
    · simp [delete_graph, resolvesToId, h, get_graph_name_snd]
    · rcases hid : g.id with _ | gid <;>
        simp [delete_graph, resolvesToId, h, hid, get_graph_name_snd]

/-- Call count of a name-based update: two requests when the name resolves
to a graph with an id, one otherwise. -/
theorem update_graph_name_len (c : Client) (t : Transport) (graph : GSGraph)
    (nm : String) (oe : Option String) :
    (update_graph c t graph (some nm) none oe).2.length =
      (if resolvesToId c t nm oe then 2 else 1) := by
  rcases h : (get_graph c t (some nm) none oe).1 with e | og
  · simp [update_graph, resolvesToId, h, get_graph_name_snd]
  · rcases og with _ | g
    · simp [update_graph, resolvesToId, h, get_graph_name_snd]
    · rcases hid : g.id with _ | gid <;>
        simp [update_graph, resolvesToId, h, hid, get_graph_name_snd]

/-- Call count of a name-based make-public: two requests when the name
resolves to a graph with an id, one otherwise. -/
theorem make_graph_public_name_len (c : Client) (t : Transport) (nm : String) :
    (make_graph_public c t (some nm) none).2.length =
      (if resolvesToId c t nm none then 2 else 1) := by
  rcases h : (get_graph c t (some nm) none none).1 with e | og
  · simp [make_graph_public, resolvesToId, h, get_graph_name_snd]
  · rcases og with _ | g
    · simp [make_graph_public, resolvesToId, h, get_graph_name_snd]
    · rcases hid : g.id with _ | gid <;>
        simp [make_graph_public, resolvesToId, h, hid, get_graph_name_snd]

/-- Call count of a name-based make-private: two requests when the name
resolves to a graph with an id, one otherwise. -/
theorem make_graph_private_name_len (c : Client) (t : Transport) (nm : String) :
    (make_graph_private c t (some nm) none).2.length =
      (if resolvesToId c t nm none then 2 else 1) := by
  rcases h : (get_graph c t (some nm) none none).1 with e | og
  · simp [make_graph_private, resolvesToId, h, get_graph_name_snd]
  · rcases og with _ | g
    · simp [make_graph_private, resolvesToId, h, get_graph_name_snd]
    · rcases hid : g.id with _ | gid <;>
        simp [make_graph_private, resolvesToId, h, hid, get_graph_name_snd]

/-- Claim C1 counterexample: against a `total = 0` transport, the
name-based fetch `get_graph(name=..)` issues one transport call, not the
two the claim asserts; a name-based delete whose resolution finds nothing
likewise stops after one call. -/
theorem c1_counterexample :
    ¬ ((get_graph c0 t0 (some "g") none none).2.length = 2) ∧
    ¬ ((delete_graph c0 t0 (some "g") none).2.length = 2) := by
  constructor <;> decide

/-- Claim C1, amended: every operation issues exactly one transport call,
except the name-based variants of delete, update, make-public and
make-private, which issue two calls (lookup then main call) when the name
resolves to a graph carrying an id and only the lookup call otherwise;
the name-based fetch issues exactly one call, the lookup itself being the
main call. -/
theorem c1_call_counts_amended (c : Client) (t : Transport) (graph : GSGraph)
    (nm : String) (onm : Option String) (gid : Int) (oe : Option String)
    (tags : Option (List String)) (limit offset : Int) :
    (post_graph c t graph).2.length = 1 ∧
    (get_graph c t onm (some gid) oe).2.length = 1 ∧
    (get_graph c t (some nm) none oe).2.length = 1 ∧
    (get_public_graphs c t tags limit offset).2.length = 1 ∧
    (get_shared_graphs c t tags limit offset).2.length = 1 ∧
    (get_my_graphs c t tags limit offset).2.length = 1 ∧
    (delete_graph c t onm (some gid)).2.length = 1 ∧
    (delete_graph c t (some nm) none).2.length =
      (if resolvesToId c t nm none then 2 else 1) ∧
    (update_graph c t graph onm (some gid) oe).2.length = 1 ∧
    (update_graph c t graph (some nm) none oe).2.length =
      (if resolvesToId c t nm oe then 2 else 1) ∧
    (make_graph_public c t onm (some gid)).2.length = 1 ∧
    (make_graph_public c t (some nm) none).2.length =
      (if resolvesToId c t nm none then 2 else 1) ∧
    (make_graph_private c t onm (some gid)).2.length = 1 ∧
    (make_graph_private c t (some nm) none).2.length =
      (if resolvesToId c t nm none then 2 else 1) := by
  refine ⟨rfl, ?_, rfl, rfl, rfl, rfl, ?_, delete_graph_name_len c t nm, ?_,
    update_graph_name_len c t graph nm oe, ?_, make_graph_public_name_len c t nm,
    ?_, make_graph_private_name_len c t nm⟩ <;> cases onm <;> rfl

/-- The optional `tags[]` update leaves lookups at other keys unchanged. -/
theorem jget_withTags (q : Dict) (tags : Option (List String)) (k : String)
    (h : k ≠ "tags[]") : jget (withTags q tags) k = jget q k := by
  cases tags with
  | none => rfl
  | some ts => exact jget_dictUpdate_other _ _ _ _ h

/-- Claim C6 counterexample: with `limit = 1`, a transport answering with a
two-element `graphs` list makes `get_public_graphs` return two graphs —
the client never truncates to `limit`. -/
theorem c6_counterexample :
    (get_public_graphs c0 t2 none 1 0).1 =
      Except.ok [Graph.mk (Json.obj []), Graph.mk (Json.obj [])] ∧
    ¬ ((([Graph.mk (Json.obj []), Graph.mk (Json.obj [])] : List Graph).length : Int)
        ≤ (1 : Int)) := by
  constructor
  · rfl
  · decide

/-- Claim C6, amended: each list operation passes `limit` and `offset`
unchanged as the `limit` and `offset` keys of the single query it sends,
and returns exactly the service's `graphs` list wrapped element-wise — so
its length is the service list's length, and is bounded by `limit` only
when the service's response is. -/
theorem c6_list_query_amended (c : Client) (t : Transport)
    (tags : Option (List String)) (limit offset : Int) :
    ((get_public_graphs c t tags limit offset).2 =
        [⟨"GET", GRAPHS_PATH, none, some (publicGraphsQuery limit offset tags)⟩] ∧
      jget (publicGraphsQuery limit offset tags) "limit" = some (Json.num limit) ∧
      jget (publicGraphsQuery limit offset tags) "offset" = some (Json.num offset) ∧
      (∀ l : List Json,
        jget (t ⟨"GET", GRAPHS_PATH, none, some (publicGraphsQuery limit offset tags)⟩)
            "graphs" = some (Json.arr l) →
          (get_public_graphs c t tags limit offset).1 = Except.ok (l.map Graph.mk))) ∧
    ((get_shared_graphs c t tags limit offset).2 =
        [⟨"GET", GRAPHS_PATH, none, some (sharedGraphsQuery c limit offset tags)⟩] ∧
      jget (sharedGraphsQuery c limit offset tags) "limit" = some (Json.num limit) ∧
      jget (sharedGraphsQuery c limit offset tags) "offset" = some (Json.num offset) ∧
      (∀ l : List Json,
        jget (t ⟨"GET", GRAPHS_PATH, none, some (sharedGraphsQuery c limit offset tags)⟩)
            "graphs" = some (Json.arr l) →
          (get_shared_graphs c t tags limit offset).1 = Except.ok (l.map Graph.mk))) ∧
    ((get_my_graphs c t tags limit offset).2 =
        [⟨"GET", GRAPHS_PATH, none, some (myGraphsQuery c limit offset tags)⟩] ∧
      jget (myGraphsQuery c limit offset tags) "limit" = some (Json.num limit) ∧
      jget (myGraphsQuery c limit offset tags) "offset" = some (Json.num offset) ∧
      (∀ l : List Json,
        jget (t ⟨"GET", GRAPHS_PATH, none, some (myGraphsQuery c limit offset tags)⟩)
            "graphs" = some (Json.arr l) →
          (get_my_graphs c t tags limit offset).1 = Except.ok (l.map Graph.mk))) := by
  refine ⟨⟨rfl, ?_, ?_, ?_⟩, ⟨rfl, ?_, ?_, ?_⟩, ⟨rfl, ?_, ?_, ?_⟩⟩
  · rw [publicGraphsQuery, jget_withTags _ _ _ (by decide)]
    simp [jget]
  · rw [publicGraphsQuery, jget_withTags _ _ _ (by decide)]
    simp [jget]
  · intro l hl
    simp [get_public_graphs, apiResponseGraphs, hl]
  · rw [sharedGraphsQuery, jget_withTags _ _ _ (by decide)]
    simp [jget]
  · rw [sharedGraphsQuery, jget_withTags _ _ _ (by decide)]
    simp [jget]
  · intro l hl
    simp [get_shared_graphs, apiResponseGraphs, hl]
  · rw [myGraphsQuery, jget_withTags _ _ _ (by decide)]
    simp [jget]
  · rw [myGraphsQuery, jget_withTags _ _ _ (by decide)]
    simp [jget]
  · intro l hl
    simp [get_my_graphs, apiResponseGraphs, hl]

/-- Claim C6 witness: against the two-graph transport, the three list
operations each return exactly the two graphs of the service response. -/
theorem c6_list_query_amended_witness :
    (get_public_graphs c0 t2 none 1 0).1 =
      Except.ok ([Json.obj [], Json.obj []].map Graph.mk) ∧
    (get_shared_graphs c0 t2 none 1 0).1 =
      Except.ok ([Json.obj [], Json.obj []].map Graph.mk) ∧
    (get_my_graphs c0 t2 none 1 0).1 =
      Except.ok ([Json.obj [], Json.obj []].map Graph.mk) := by
  obtain ⟨hp, hs, hm⟩ := c6_list_query_amended c0 t2 none 1 0
  exact ⟨hp.2.2.2 _ rfl, hs.2.2.2 _ rfl, hm.2.2.2 _ rfl⟩
